import Mathlib

/-!
Shallow embedding of `midas_comms.py`, the serial protocol client for the
Megnajet/Xaar CIMSII/Midas ink delivery system.

The embedding has two layers.

Layer 1 models `MidasSerial.serial_write` and `MidasSerial.serial_response`
at the string level.  A Python value returned by `serial_response` is a
`PyVal`; a Python computation that may raise is a `PyResult`.  The result of
one `self.serial.read_until` call is a `ReadResult`: either a decoded string,
or one of the two exceptions the source catches (`TimeoutError`,
`SerialException`).  Python string subscripting is modelled by
`pyStrSubscript`: the source subscripts `response` with the tuple
`(len(response) - 3, 1)` — in Python a tuple subscript on `str` raises
`TypeError: string indices must be integers`.

Layer 2 models the facade methods (`set_tank_temperature`,
`set_purge_pressure`, `set_active_heads`, the cited getters) as state
transformers over `MidasState`.  The state records the open flag, the list of
frames transmitted so far (`written`), the parameter caches, and an
environment-supplied `script`: the successive outcomes of the
`serial_response` calls, which in the running program depend on the external
device and transport.  When the script is exhausted the exchange yields the
`TypeError` raise, which is exactly what `serial_response` produces for every
string the transport actually returns (see `serial_response_ok_raises`).
-/

/-- A Python exception, as far as this module can raise one. -/
inductive PyExn where
  | typeError (msg : String)
  | indexError (msg : String)
  deriving DecidableEq, Repr

/-- A Python value that `serial_response` can return: a bool, a string, or a
caught exception object returned as a value (source lines 50–55 return the
caught `TimeoutError` / `SerialException` instance). -/
inductive PyVal where
  | bool (b : Bool)
  | str (s : String)
  | exnTimeout (msg : String)
  | exnSerial (msg : String)
  deriving DecidableEq, Repr

/-- Outcome of a Python computation: a returned value, or a raised
exception propagating to the caller. -/
inductive PyResult where
  | val (v : PyVal)
  | raise (e : PyExn)
  deriving DecidableEq, Repr

/-- A Python subscript expression: an integer index, or a two-element tuple
`(a, b)` as written (by mistake) in the source. -/
inductive PyIndex where
  | int (i : Int)
  | tup (a b : Int)
  deriving DecidableEq, Repr

/-- Result of one `self.serial.read_until` call: the decoded string, or one
of the two exceptions the source catches. -/
inductive ReadResult where
  | ok (s : String)
  | timeout (msg : String)
  | portClosed (msg : String)
  deriving DecidableEq, Repr

/-- Python string subscript `s[ix]`.  An integer index selects the single
character at that position (negative indices count from the end; out of
range raises `IndexError`).  Any non-integer subscript, in particular a
tuple such as `(len(response) - 3, 1)`, raises
`TypeError: string indices must be integers`. -/
def pyStrSubscript (s : String) (ix : PyIndex) : PyResult :=
  match ix with
  | PyIndex.int i =>
    let j : Int := if i < 0 then i + (s.length : Int) else i
    if 0 ≤ j ∧ j < (s.length : Int) then
      PyResult.val (PyVal.str (String.singleton (s.toList.getD j.toNat (Char.ofNat 0))))
    else
      PyResult.raise (PyExn.indexError "string index out of range")
  | PyIndex.tup _ _ => PyResult.raise (PyExn.typeError "string indices must be integers")

/-- `MidasSerial.serial_response` (source lines 45–70), as a function of the
`response_type` argument and of the result of the single
`self.serial.read_until` call it performs. A caught `TimeoutError` or
`SerialException` is returned as a value.  Otherwise the source computes
`response_check = response[len(response) - 3, 1]` — a tuple subscript — then
compares it against `"?"` and `">"`, then for `"set"` returns
`bool(response == ",A,C")`, and for `"get"` returns
`response[2, (len(response) - 2)]` (again a tuple subscript). -/
def serial_response (response_type : String) (read_result : ReadResult) : PyResult :=
  match read_result with
  | ReadResult.timeout msg => PyResult.val (PyVal.exnTimeout msg)
  | ReadResult.portClosed msg => PyResult.val (PyVal.exnSerial msg)
  | ReadResult.ok response =>
    match pyStrSubscript response (PyIndex.tup ((response.length : Int) - 3) 1) with
    | PyResult.raise e => PyResult.raise e
    | PyResult.val response_check =>
      if response_check = PyVal.str "?" then PyResult.val (PyVal.str "?,C")
      else if response_check = PyVal.str ">" then PyResult.val (PyVal.str "<,C")
      else if response_type = "set" then
        PyResult.val (PyVal.bool (response = ",A,C"))
      else if response_type = "get" then
        match pyStrSubscript response (PyIndex.tup 2 ((response.length : Int) - 2)) with
        | PyResult.raise e => PyResult.raise e
        | PyResult.val response_information => PyResult.val response_information
      else PyResult.val (PyVal.str "None")

/-- An `{actual, demand}` cache pair, e.g. `self.tank_temperature = {'actual': "", 'demand': ""}`.
Fields hold whatever `serial_response` returned (string, bool or exception
object), so their type is `PyVal`. -/
structure ActualDemand where
  actual : PyVal
  demand : PyVal
  deriving DecidableEq, Repr

/-- State of the client: the transport open flag, the frames transmitted so
far (`written`, in order), the environment-supplied `script` of exchange
outcomes, and the parameter caches the verified claims touch.  Cache fields
are initialised to the empty string, as in the Python constructors. -/
structure MidasState where
  is_open : Bool
  written : List String
  script : List PyResult
  tank_temperature : ActualDemand
  purge_pressure : ActualDemand
  active_heads : PyVal
  firmware_version : PyVal
  running_hours : PyVal
  network_id : PyVal
  manual_meniscus_state : ActualDemand
  deriving DecidableEq, Repr

/-- The empty-string cache pair every constructor starts from. -/
def emptyAD : ActualDemand := { actual := PyVal.str "", demand := PyVal.str "" }

/-- A fresh client state with the given open flag and exchange script. -/
def mkState (op : Bool) (script : List PyResult) : MidasState :=
  { is_open := op
    written := []
    script := script
    tank_temperature := emptyAD
    purge_pressure := emptyAD
    active_heads := PyVal.str ""
    firmware_version := PyVal.str ""
    running_hours := PyVal.str ""
    network_id := PyVal.str ""
    manual_meniscus_state := emptyAD }

/-- The node-addressing step of `MidasSerial.serial_write` (source lines
39–41): a nonzero `node_id` prepends the single letter `chr(ord('@') + node_id)`
to the command; `node_id = 0` leaves the command unchanged. -/
def nodeFramed (command : String) (node_id : Nat) : String :=
  if node_id ≠ 0 then String.singleton (Char.ofNat (64 + node_id)) ++ command
  else command

/-- `MidasSerial.serial_write` (source lines 34–43): apply node addressing,
then transmit the frame only if the port reports itself open; a write on a
closed port is silently dropped. -/
def serial_write (st : MidasState) (command : String) (node_id : Nat) : MidasState :=
  let command := nodeFramed command node_id
  if st.is_open then { st with written := st.written ++ [command] } else st

/-- One `serial_response` call in the composed system: its outcome is the
next entry of the environment script (the outcome depends on what the device
and transport did; see `serial_response` for the string-level semantics).
When the script is exhausted the outcome is the `TypeError` raise, which is
what `serial_response` yields on every string actually read
(`serial_response_ok_raises`). -/
def serial_response_step (st : MidasState) : PyResult × MidasState :=
  match st.script with
  | [] => (PyResult.raise (PyExn.typeError "string indices must be integers"), st)
  | o :: rest => (o, { st with script := rest })

/-- `Temperatures.get_tank_temperature` (source lines 425–430): write
`"SHT?\r"`, read the response as a get, store it in
`tank_temperature['actual']` and return it. -/
def get_tank_temperature (st : MidasState) (node_id : Nat) : MidasState × PyResult :=
  let st1 := serial_write st "SHT?\r" node_id
  let r := (serial_response_step st1).1
  let st2 := (serial_response_step st1).2
  match r with
  | PyResult.raise e => (st2, PyResult.raise e)
  | PyResult.val v =>
    ({ st2 with tank_temperature := { st2.tank_temperature with actual := v } }, PyResult.val v)

/-- `Temperatures.set_tank_temperature` (source lines 432–441): write
`"SHT," + temperature + "\r"`, read the response as a set; if it `is True`,
set `tank_temperature['demand']` to the argument and call
`get_tank_temperature`; return the set response. -/
def set_tank_temperature (st : MidasState) (temperature : String) (node_id : Nat) :
    MidasState × PyResult :=
  let command := "SHT," ++ temperature ++ "\r"
  let st1 := serial_write st command node_id
  let r := (serial_response_step st1).1
  let st2 := (serial_response_step st1).2
  match r with
  | PyResult.raise e => (st2, PyResult.raise e)
  | PyResult.val midas_response =>
    if midas_response = PyVal.bool true then
      let st3 := { st2 with
        tank_temperature := { st2.tank_temperature with demand := PyVal.str temperature } }
      let q := get_tank_temperature st3 node_id
      match q.2 with
      | PyResult.raise e => (q.1, PyResult.raise e)
      | PyResult.val _ => (q.1, PyResult.val midas_response)
    else (st2, PyResult.val midas_response)

/-- `Purge.get_purge_pressure` (source lines 626–631). -/
def get_purge_pressure (st : MidasState) (node_id : Nat) : MidasState × PyResult :=
  let st1 := serial_write st "SPP?\r" node_id
  let r := (serial_response_step st1).1
  let st2 := (serial_response_step st1).2
  match r with
  | PyResult.raise e => (st2, PyResult.raise e)
  | PyResult.val v =>
    ({ st2 with purge_pressure := { st2.purge_pressure with actual := v } }, PyResult.val v)

/-- `Purge.set_purge_pressure` (source lines 633–642): same discipline as
`set_tank_temperature`, with command code `"SPP"`. -/
def set_purge_pressure (st : MidasState) (pressure : String) (node_id : Nat) :
    MidasState × PyResult :=
  let command := "SPP," ++ pressure ++ "\r"
  let st1 := serial_write st command node_id
  let r := (serial_response_step st1).1
  let st2 := (serial_response_step st1).2
  match r with
  | PyResult.raise e => (st2, PyResult.raise e)
  | PyResult.val midas_response =>
    if midas_response = PyVal.bool true then
      let st3 := { st2 with
        purge_pressure := { st2.purge_pressure with demand := PyVal.str pressure } }
      let q := get_purge_pressure st3 node_id
      match q.2 with
      | PyResult.raise e => (q.1, PyResult.raise e)
      | PyResult.val _ => (q.1, PyResult.val midas_response)
    else (st2, PyResult.val midas_response)

/-- `Midas.set_active_heads` (source lines 764–772): write
`"SAH," + heads + "\r"`, read as a set; if it `is True`, store the argument
in `self.active_heads` — and nothing else: no demand/actual pair, no
follow-up read. -/
def set_active_heads (st : MidasState) (heads : String) (node_id : Nat) :
    MidasState × PyResult :=
  let command := "SAH," ++ heads ++ "\r"
  let st1 := serial_write st command node_id
  let r := (serial_response_step st1).1
  let st2 := (serial_response_step st1).2
  match r with
  | PyResult.raise e => (st2, PyResult.raise e)
  | PyResult.val midas_response =>
    if midas_response = PyVal.bool true then
      ({ st2 with active_heads := PyVal.str heads }, PyResult.val midas_response)
    else (st2, PyResult.val midas_response)

/-- `Midas.get_firmware_version` (source lines 743–748): writes `"SVN?\r"`. -/
def get_firmware_version (st : MidasState) (node_id : Nat) : MidasState × PyResult :=
  let st1 := serial_write st "SVN?\r" node_id
  let r := (serial_response_step st1).1
  let st2 := (serial_response_step st1).2
  match r with
  | PyResult.raise e => (st2, PyResult.raise e)
  | PyResult.val v => ({ st2 with firmware_version := v }, PyResult.val v)

/-- `Status.get_system_running_hours` (source lines 194–199): also writes
`"SVN?\r"`. -/
def get_system_running_hours (st : MidasState) (node_id : Nat) : MidasState × PyResult :=
  let st1 := serial_write st "SVN?\r" node_id
  let r := (serial_response_step st1).1
  let st2 := (serial_response_step st1).2
  match r with
  | PyResult.raise e => (st2, PyResult.raise e)
  | PyResult.val v => ({ st2 with running_hours := v }, PyResult.val v)

/-- `Midas.get_network_id` (source lines 849–854): writes `"SNI?\r"`. -/
def get_network_id (st : MidasState) (node_id : Nat) : MidasState × PyResult :=
  let st1 := serial_write st "SNI?\r" node_id
  let r := (serial_response_step st1).1
  let st2 := (serial_response_step st1).2
  match r with
  | PyResult.raise e => (st2, PyResult.raise e)
  | PyResult.val v => ({ st2 with network_id := v }, PyResult.val v)

/-- `Pumps.get_manual_meniscus` (source lines 589–595): also writes
`"SNI?\r"`, storing into `manual_meniscus_state['actual']`. -/
def get_manual_meniscus (st : MidasState) (node_id : Nat) : MidasState × PyResult :=
  let st1 := serial_write st "SNI?\r" node_id
  let r := (serial_response_step st1).1
  let st2 := (serial_response_step st1).2
  match r with
  | PyResult.raise e => (st2, PyResult.raise e)
  | PyResult.val v =>
    ({ st2 with manual_meniscus_state := { st2.manual_meniscus_state with actual := v } },
      PyResult.val v)

/-- On any string the transport returns, the tuple subscript at the
classification step raises before anything else can happen. -/
theorem serial_response_ok_raises (response_type s : String) :
    serial_response response_type (ReadResult.ok s) =
      PyResult.raise (PyExn.typeError "string indices must be integers") := rfl

/-- C2: for every response string the transport read returns without raising,
`serial_response` raises `TypeError` at the classification step (the check
expression subscripts a string with a tuple), so it never returns a get
payload, a set confirmation boolean, or the error tokens; only the timeout
and port-error branches can produce a return value (they map the two
`ReadResult` failure constructors to returned values, see
`C8_transport_failure_returned`). -/
theorem C2_serial_response_always_raises_typeerror (response_type s : String) :
    serial_response response_type (ReadResult.ok s) =
      PyResult.raise (PyExn.typeError "string indices must be integers") := rfl

/-- C6 (code bug): the claim says that for a set operation
`serial_response` returns `True` exactly on the canonical confirmation frame
`",A,C"` — the comparison `bool(response == ",A,C")` is in the source, but it
is unreachable: on the confirmation frame itself the classification step
raises `TypeError`, so `serial_response` never returns a boolean at all. -/
theorem C6_confirmation_frame_raises_instead_of_true :
    serial_response "set" (ReadResult.ok ",A,C") =
      PyResult.raise (PyExn.typeError "string indices must be integers") := rfl

/-- C7 (code bug): the claim says a frame whose check-offset character is
`"?"` is classified Malformed-Command and one whose character is `">"` is
classified Missing-Data.  The comparisons are in the source (lines 59–64)
but unreachable: computing the check character itself raises `TypeError`, on
both a `"?"`-marked frame and a `">"`-marked frame. -/
theorem C7_error_marker_frames_raise_instead_of_classifying :
    serial_response "get" (ReadResult.ok "?,C") =
        PyResult.raise (PyExn.typeError "string indices must be integers") ∧
      serial_response "get" (ReadResult.ok ">,C") =
        PyResult.raise (PyExn.typeError "string indices must be integers") := ⟨rfl, rfl⟩

/-- C8: if the transport read raises `TimeoutError` or `SerialException`,
`serial_response` returns the original low-level error object as its result
(not a payload string and not a boolean), after its single read — the model
consumes exactly one `ReadResult` per call, so no retry is possible. -/
theorem C8_transport_failure_returned (response_type msg : String) :
    serial_response response_type (ReadResult.timeout msg) =
        PyResult.val (PyVal.exnTimeout msg) ∧
      serial_response response_type (ReadResult.portClosed msg) =
        PyResult.val (PyVal.exnSerial msg) := ⟨rfl, rfl⟩

/-- C9: if the transport does not report itself open, `serial_write`
transmits nothing and changes nothing: the resulting state is exactly the
input state, and no error is raised (the function is total). -/
theorem C9_closed_port_write_is_noop (st : MidasState) (command : String) (node_id : Nat)
    (h : st.is_open = false) : serial_write st command node_id = st := by
  simp [serial_write, h]

/-- Witness for C9 at a concrete closed state and command. -/
theorem C9_witness :
    (mkState false []).is_open = false ∧
      serial_write (mkState false []) "STA?\r" 3 = mkState false [] :=
  ⟨rfl, C9_closed_port_write_is_noop (mkState false []) "STA?\r" 3 rfl⟩

/-- C5: with the port open, `serial_write` for `node_id` in 1–15 transmits
exactly the single character `chr(ord('@') + node_id)` prepended to the
command body, and for `node_id = 0` transmits the command body unchanged.
(The carriage return is part of the command every caller passes, e.g.
`"SHT,45\r"`; see the witness for the full `"CSHT,45\r"` frame on node 3.) -/
theorem C5_node_letter_framing (st : MidasState) (command : String) (node_id : Nat)
    (hopen : st.is_open = true) :
    (1 ≤ node_id ∧ node_id ≤ 15 →
      (serial_write st command node_id).written =
        st.written ++ [String.singleton (Char.ofNat (64 + node_id)) ++ command]) ∧
    (node_id = 0 →
      (serial_write st command node_id).written = st.written ++ [command]) := by
  constructor
  · rintro ⟨h1, _⟩
    have hne : node_id ≠ 0 := by omega
    simp [serial_write, nodeFramed, hne, hopen]
  · intro h0
    simp [serial_write, nodeFramed, h0, hopen]

/-- Witness for C5 on node 3 with the spec scenario frame `"CSHT,45\r"`. -/
theorem C5_witness :
    (mkState true []).is_open = true ∧ (1 ≤ 3 ∧ 3 ≤ 15) ∧
      (serial_write (mkState true []) "SHT,45\r" 3).written =
        (mkState true []).written ++ [String.singleton (Char.ofNat (64 + 3)) ++ "SHT,45\r"] ∧
      (serial_write (mkState true []) "SHT,45\r" 3).written = ["CSHT,45\r"] :=
  ⟨rfl, by decide,
    (C5_node_letter_framing (mkState true []) "SHT,45\r" 3 rfl).1 (by decide), by decide⟩

/-- C10: `get_firmware_version` and `get_system_running_hours` transmit the
same frames (both `"SVN?\r"`, node-framed identically) and return the same
outcome from the same starting state; likewise `get_network_id` and
`get_manual_meniscus` (both `"SNI?\r"`), so the device cannot distinguish
the two members of either pair. -/
theorem C10_aliased_wire_commands (st : MidasState) (node_id : Nat) :
    ((get_firmware_version st node_id).1.written =
        (get_system_running_hours st node_id).1.written ∧
      (get_firmware_version st node_id).2 = (get_system_running_hours st node_id).2 ∧
      (get_firmware_version st node_id).1.written =
        (serial_write st "SVN?\r" node_id).written) ∧
    ((get_network_id st node_id).1.written = (get_manual_meniscus st node_id).1.written ∧
      (get_network_id st node_id).2 = (get_manual_meniscus st node_id).2 ∧
      (get_network_id st node_id).1.written =
        (serial_write st "SNI?\r" node_id).written) := by
  obtain ⟨op, written, script, tt, pp, ah, fv, rh, ni, mm⟩ := st
  cases op <;> rcases script with _ | ⟨v | e, rest⟩ <;>
    simp [get_firmware_version, get_system_running_hours, get_network_id,
      get_manual_meniscus, serial_write, serial_response_step]

/-- C4: when the exchange outcome is a returned value other than the boolean
`True` (Malformed-Command token, Missing-Data token, `False`, a timeout
object — anything but the confirmation), each modelled setter returns that
non-true value unchanged and leaves the parameter cache (both `actual` and
`demand`) exactly as it was before the call. -/
theorem C4_unconfirmed_set_preserves_caches (st : MidasState) (v : PyVal) (value : String)
    (node_id : Nat) (hv : (serial_response_step st).1 = PyResult.val v)
    (hne : v ≠ PyVal.bool true) :
    ((set_purge_pressure st value node_id).2 = PyResult.val v ∧
      (set_purge_pressure st value node_id).1.purge_pressure = st.purge_pressure) ∧
    ((set_tank_temperature st value node_id).2 = PyResult.val v ∧
      (set_tank_temperature st value node_id).1.tank_temperature = st.tank_temperature) ∧
    ((set_active_heads st value node_id).2 = PyResult.val v ∧
      (set_active_heads st value node_id).1.active_heads = st.active_heads) := by
  obtain ⟨op, written, script, tt, pp, ah, fv, rh, ni, mm⟩ := st
  rcases script with _ | ⟨o, rest⟩
  · simp [serial_response_step] at hv
  · simp [serial_response_step] at hv
    subst hv
    cases op <;>
      simp [set_purge_pressure, set_tank_temperature, set_active_heads,
        serial_write, serial_response_step, hne]

/-- Witness for C4: a Malformed-Command token outcome leaves the purge
pressure cache at its initial value and is returned as-is. -/
theorem C4_witness :
    (serial_response_step (mkState true [PyResult.val (PyVal.str "?,C")])).1 =
        PyResult.val (PyVal.str "?,C") ∧
      PyVal.str "?,C" ≠ PyVal.bool true ∧
      (set_purge_pressure (mkState true [PyResult.val (PyVal.str "?,C")]) "400" 0).1.purge_pressure =
        (mkState true [PyResult.val (PyVal.str "?,C")]).purge_pressure :=
  ⟨rfl, by decide,
    ((C4_unconfirmed_set_preserves_caches (mkState true [PyResult.val (PyVal.str "?,C")])
      (PyVal.str "?,C") "400" 0 rfl (by decide)).1).2⟩

/-- C1 counterexample: `set_active_heads` is a parameter write operation, and
on a confirmed set it issues no follow-up read at all.  From an open state
whose script confirms the set (second entry would answer a readback), the
call returns the confirmation, yet exactly one frame was transmitted (the
set frame `"SAH,15\r"`, no read frame) and the second scripted outcome is
still unconsumed — no read of the parameter was issued; the written value is
stored directly in the single `active_heads` field. -/
theorem C1_counterexample :
    (set_active_heads
        (mkState true [PyResult.val (PyVal.bool true), PyResult.val (PyVal.str "15")])
        "15" 0).2 = PyResult.val (PyVal.bool true) ∧
      (set_active_heads
        (mkState true [PyResult.val (PyVal.bool true), PyResult.val (PyVal.str "15")])
        "15" 0).1.written = ["SAH,15\r"] ∧
      (set_active_heads
        (mkState true [PyResult.val (PyVal.bool true), PyResult.val (PyVal.str "15")])
        "15" 0).1.script = [PyResult.val (PyVal.str "15")] ∧
      (set_active_heads
        (mkState true [PyResult.val (PyVal.bool true), PyResult.val (PyVal.str "15")])
        "15" 0).1.active_heads = PyVal.str "15" := by decide

/-- C1 amended: for the write operations that maintain an `{actual, demand}`
cache (here `set_tank_temperature` and `set_purge_pressure`), a confirmed
set stores the written value in `demand` and immediately issues a read of
the same parameter, whose outcome becomes the new `actual` — the transmitted
frames are exactly the set frame followed by the query frame.
`set_active_heads`, however, stores the written value in its single cached
field and issues no follow-up read: only the set frame is transmitted and
the next scripted exchange outcome stays unconsumed. -/
theorem C1_amended_write_discipline (st : MidasState) (value : String) (node_id : Nat)
    (v : PyVal) (rest : List PyResult) (hopen : st.is_open = true)
    (hs : st.script = PyResult.val (PyVal.bool true) :: PyResult.val v :: rest) :
    ((set_tank_temperature st value node_id).2 = PyResult.val (PyVal.bool true) ∧
      (set_tank_temperature st value node_id).1.tank_temperature.demand = PyVal.str value ∧
      (set_tank_temperature st value node_id).1.tank_temperature.actual = v ∧
      (set_tank_temperature st value node_id).1.written =
        st.written ++ [nodeFramed ("SHT," ++ value ++ "\r") node_id,
          nodeFramed "SHT?\r" node_id]) ∧
    ((set_purge_pressure st value node_id).2 = PyResult.val (PyVal.bool true) ∧
      (set_purge_pressure st value node_id).1.purge_pressure.demand = PyVal.str value ∧
      (set_purge_pressure st value node_id).1.purge_pressure.actual = v ∧
      (set_purge_pressure st value node_id).1.written =
        st.written ++ [nodeFramed ("SPP," ++ value ++ "\r") node_id,
          nodeFramed "SPP?\r" node_id]) ∧
    ((set_active_heads st value node_id).2 = PyResult.val (PyVal.bool true) ∧
      (set_active_heads st value node_id).1.active_heads = PyVal.str value ∧
      (set_active_heads st value node_id).1.written =
        st.written ++ [nodeFramed ("SAH," ++ value ++ "\r") node_id] ∧
      (set_active_heads st value node_id).1.script = PyResult.val v :: rest) := by
  obtain ⟨op, written, script, tt, pp, ah, fv, rh, ni, mm⟩ := st
  dsimp only at hopen hs
  subst hopen
  subst hs
  simp [set_tank_temperature, get_tank_temperature, set_purge_pressure, get_purge_pressure,
    set_active_heads, serial_write, serial_response_step, nodeFramed]

/-- Witness for C1 at a concrete confirmed write of tank temperature 45. -/
theorem C1_witness :
    (mkState true [PyResult.val (PyVal.bool true), PyResult.val (PyVal.str "44")]).is_open
        = true ∧
      (mkState true [PyResult.val (PyVal.bool true),
          PyResult.val (PyVal.str "44")]).script =
        PyResult.val (PyVal.bool true) :: PyResult.val (PyVal.str "44") :: [] ∧
      (set_tank_temperature
        (mkState true [PyResult.val (PyVal.bool true), PyResult.val (PyVal.str "44")])
        "45" 0).1.tank_temperature.demand = PyVal.str "45" ∧
      (set_tank_temperature
        (mkState true [PyResult.val (PyVal.bool true), PyResult.val (PyVal.str "44")])
        "45" 0).1.tank_temperature.actual = PyVal.str "44" :=
  ⟨rfl, rfl,
    ((C1_amended_write_discipline
      (mkState true [PyResult.val (PyVal.bool true), PyResult.val (PyVal.str "44")])
      "45" 0 (PyVal.str "44") [] rfl rfl).1).2.1,
    ((C1_amended_write_discipline
      (mkState true [PyResult.val (PyVal.bool true), PyResult.val (PyVal.str "44")])
      "45" 0 (PyVal.str "44") [] rfl rfl).1).2.2.1⟩

/-- C3 counterexample: tank temperature has declared range 0–60, yet calling
`set_tank_temperature` with the out-of-range value `"999"` performs one
transport write (the frame `"SHT,999\r"` carrying the value reaches the
wire) instead of zero, and returns the ordinary classification outcome —
there is no Domain-Validation-Error anywhere in the code. -/
theorem C3_counterexample :
    (set_tank_temperature (mkState true []) "999" 0).1.written = ["SHT,999\r"] ∧
      (set_tank_temperature (mkState true []) "999" 0).2 =
        PyResult.raise (PyExn.typeError "string indices must be integers") := by decide

/-- C3 amended: write operations perform no client-side domain validation:
for every value string, in or out of the documented range, the setter frames
the value and transmits it (one transport write when the port is open)
before any classification happens, and the call result is the ordinary
exchange outcome — no Domain-Validation-Error exists in this layer.  Stated
here for the composed behavior (empty script, i.e. the read string leads to
the classification `TypeError`). -/
theorem C3_amended_no_validation (st : MidasState) (value : String) (node_id : Nat)
    (hopen : st.is_open = true) (hs : st.script = []) :
    ((set_tank_temperature st value node_id).1.written =
        st.written ++ [nodeFramed ("SHT," ++ value ++ "\r") node_id] ∧
      (set_tank_temperature st value node_id).2 =
        PyResult.raise (PyExn.typeError "string indices must be integers")) ∧
    ((set_purge_pressure st value node_id).1.written =
        st.written ++ [nodeFramed ("SPP," ++ value ++ "\r") node_id] ∧
      (set_purge_pressure st value node_id).2 =
        PyResult.raise (PyExn.typeError "string indices must be integers")) := by
  obtain ⟨op, written, script, tt, pp, ah, fv, rh, ni, mm⟩ := st
  dsimp only at hopen hs
  subst hopen
  subst hs
  simp [set_tank_temperature, set_purge_pressure, serial_write, serial_response_step,
    nodeFramed]

/-- Witness for C3 at the out-of-range purge pressure `"600"` (range 0–500). -/
theorem C3_witness :
    (mkState true []).is_open = true ∧ (mkState true []).script = [] ∧
      (set_purge_pressure (mkState true []) "600" 0).1.written =
        (mkState true []).written ++ [nodeFramed ("SPP," ++ "600" ++ "\r") 0] :=
  ⟨rfl, rfl, ((C3_amended_no_validation (mkState true []) "600" 0 rfl rfl).2).1⟩
